import Mathlib

/-!
Shallow embedding of `src/scriptLanguageCompare/1compare.py`.

The script defines three functions and a main-module entry guard:

* `add(a, b)` returns `a + b` (Python `+`, which is exact arbitrary-precision
  addition on integers and concatenation on strings and lists);
* `simple()` computes `add(3, 4)` and prints `"The sum is:"` followed by the
  result;
* `performance()` reads `time.time()`, runs `for i in range(10000000): pass`,
  reads `time.time()` again, and prints a label, the difference of the two
  readings, and a unit;
* the `if __name__ == "__main__":` guard runs `simple()` then `performance()`.

Modelling choices: Python integers are `Int` (exact, no overflow); `time.time()`
timestamps are `Rat` (the claims under study concern exactness of the form
`end - start` and sign, not binary floating-point rounding); the clock is an
environment oracle `Nat → Except String Rat` giving the result of the n-th
`time.time()` call, `Except.error` modelling an environmental fault raising an
exception; observable behaviour is a trace of events (clock reads, loop
iterations, printed lines); the process exit code is `0` for normal completion
and `1` for an unhandled exception.
-/

/-- Python runtime values the script's `+` can meet in the claims under study:
integers, strings and lists. -/
inductive PyVal : Type where
  | int : Int → PyVal
  | str : String → PyVal
  | list : List PyVal → PyVal

mutual

/-- Python `repr` of a value, as used for elements inside a printed list. -/
def pyRepr : PyVal → String
  | PyVal.int n => toString n
  | PyVal.str s => "\x27" ++ s ++ "\x27"
  | PyVal.list xs => "[" ++ pyReprInner xs ++ "]"

/-- Comma-separated `repr`s of the elements of a Python list. -/
def pyReprInner : List PyVal → String
  | [] => ""
  | [x] => pyRepr x
  | x :: y :: xs => pyRepr x ++ ", " ++ pyReprInner (y :: xs)

end

/-- Python `str` of a value, as applied by `print` to each argument. -/
def pyStr : PyVal → String
  | PyVal.int n => toString n
  | PyVal.str s => s
  | PyVal.list xs => "[" ++ pyReprInner xs ++ "]"

/-- Embedding of `def add(a, b): return a + b`: Python `+` adds integers
exactly, concatenates strings and concatenates lists, and raises `TypeError`
on mismatched operand types. -/
def add : PyVal → PyVal → Except String PyVal
  | PyVal.int a, PyVal.int b => Except.ok (PyVal.int (a + b))
  | PyVal.str a, PyVal.str b => Except.ok (PyVal.str (a ++ b))
  | PyVal.list a, PyVal.list b => Except.ok (PyVal.list (a ++ b))
  | _, _ => Except.error "TypeError: unsupported operand types for +"

/-- Observable events of one run: a `time.time()` read returning a timestamp,
one iteration of the empty loop, and one line written to standard output. -/
inductive Event : Type where
  | readClock : Rat → Event
  | tick : Event
  | printLine : String → Event

/-- The line produced by `print("The sum is:", result)`: `print` joins its
arguments with single spaces. -/
def sumLine (v : PyVal) : String :=
  "The sum is:" ++ " " ++ pyStr v

/-- Embedding of `simple()`: compute `add(3, 4)` and print the label and the
result on one line. An exception from `add` would propagate. -/
def simple : Except String (List Event) :=
  match add (PyVal.int 3) (PyVal.int 4) with
  | Except.error e => Except.error e
  | Except.ok result => Except.ok [Event.printLine (sumLine result)]

/-- The loop bound literal `10000000` of `for i in range(10000000)`. -/
def loopBound : Nat := 10000000

/-- The local variables of `performance()` alive across the loop: only
`start_time` (`end_time` and the difference are computed after the loop). -/
structure PerfLocals where
  start_time : Rat

/-- One iteration of the loop body `pass`: it emits one iteration event and
leaves every local variable unchanged. -/
def passBody (σ : PerfLocals) (_ : Nat) : List Event × PerfLocals :=
  ([Event.tick], σ)

/-- Run a loop body over a list of index values, threading the locals and
concatenating the emitted events in order. -/
def runLoopAux (body : PerfLocals → Nat → List Event × PerfLocals) :
    List Nat → PerfLocals → List Event × PerfLocals
  | [], σ => ([], σ)
  | i :: rest, σ =>
    let p := body σ i
    let q := runLoopAux body rest p.2
    (p.1 ++ q.1, q.2)

/-- Embedding of `for i in range(n): pass`: the body runs once for each
`i` in `range(n)`. -/
def runLoop (n : Nat) (σ : PerfLocals) : List Event × PerfLocals :=
  runLoopAux passBody (List.range n) σ

/-- The line produced by `print("Python执行时间：", end_time - start_time, "秒")`:
the three arguments joined with single spaces. -/
def timeLine (elapsed : Rat) : String :=
  "Python执行时间：" ++ " " ++ toString elapsed ++ " " ++ "秒"

/-- Embedding of `performance()`: read the clock into `start_time`, run the
empty loop `loopBound` times, read the clock into `end_time`, and print the
label and `end_time - start_time`. A failing clock read propagates as an
exception. Returns the event trace in execution order, paired with the
computed elapsed value. -/
def performance (clock : Nat → Except String Rat) :
    Except String (List Event × Rat) :=
  match clock 0 with
  | Except.error e => Except.error e
  | Except.ok start_time =>
    let p := runLoop loopBound (PerfLocals.mk start_time)
    match clock 1 with
    | Except.error e => Except.error e
    | Except.ok end_time =>
      let elapsed := end_time - p.2.start_time
      Except.ok
        (Event.readClock start_time ::
          (p.1 ++ [Event.readClock end_time, Event.printLine (timeLine elapsed)]),
          elapsed)

/-- Variant of `performance` with the loop replaced by a no-op, following the
wording of the claim that the loop mutates no state: identical except that the
locals are not threaded through the loop and no iteration events occur. -/
def performanceNoLoop (clock : Nat → Except String Rat) :
    Except String (List Event × Rat) :=
  match clock 0 with
  | Except.error e => Except.error e
  | Except.ok start_time =>
    let σ := PerfLocals.mk start_time
    match clock 1 with
    | Except.error e => Except.error e
    | Except.ok end_time =>
      let elapsed := end_time - σ.start_time
      Except.ok
        (Event.readClock start_time ::
          [Event.readClock end_time, Event.printLine (timeLine elapsed)],
          elapsed)

/-- Embedding of the `if __name__ == "__main__":` guard: when the file runs as
the main program, `simple()` then `performance()` execute in that order; when
it is imported, neither runs. Result: the event trace and the process exit
code (`0` normal completion, `1` unhandled exception). -/
def runProgram (isMain : Bool) (clock : Nat → Except String Rat) :
    List Event × Nat :=
  if isMain then
    match simple with
    | Except.error _ => ([], 1)
    | Except.ok ev1 =>
      match performance clock with
      | Except.error _ => (ev1, 1)
      | Except.ok pr => (ev1 ++ pr.1, 0)
  else ([], 0)

/-- The lines written to standard output during a trace, in order. -/
def printedLines : List Event → List String
  | [] => []
  | Event.printLine s :: rest => s :: printedLines rest
  | _ :: rest => printedLines rest

/-- A well-behaved environment: every clock read succeeds and returns `0`. -/
def goodClock : Nat → Except String Rat :=
  fun _ => Except.ok 0

/-- An environment whose wall clock was stepped backwards between the two
reads: the first read returns `1`, the second returns `0`. -/
def badClock : Nat → Except String Rat :=
  fun n => if n = 0 then Except.ok 1 else Except.ok 0

/-- An environment where the clock is unavailable: every read raises. -/
def errClock : Nat → Except String Rat :=
  fun _ => Except.error "clock unavailable"

/-- An environment agreeing with `goodClock` on the two reads the program
performs but differing on later (never-performed) reads. -/
def altClock : Nat → Except String Rat :=
  fun n => if n ≤ 1 then Except.ok 0 else Except.ok 5

theorem runLoopAux_pass (l : List Nat) (σ : PerfLocals) :
    runLoopAux passBody l σ = (List.replicate l.length Event.tick, σ) := by
  induction l with
  | nil => rfl
  | cons i rest ih => simp [runLoopAux, passBody, ih, List.replicate_succ]

theorem runLoop_eq (n : Nat) (σ : PerfLocals) :
    runLoop n σ = (List.replicate n Event.tick, σ) := by
  simp [runLoop, runLoopAux_pass]

theorem performance_eq (clock : Nat → Except String Rat) (t0 t1 : Rat)
    (h0 : clock 0 = Except.ok t0) (h1 : clock 1 = Except.ok t1) :
    performance clock = Except.ok
      (Event.readClock t0 ::
        (List.replicate loopBound Event.tick ++
          [Event.readClock t1, Event.printLine (timeLine (t1 - t0))]),
        t1 - t0) := by
  simp [performance, h0, h1, runLoop_eq]

theorem simple_eq : simple = Except.ok [Event.printLine "The sum is: 7"] := rfl

theorem runProgram_true_eq (clock : Nat → Except String Rat) (t0 t1 : Rat)
    (h0 : clock 0 = Except.ok t0) (h1 : clock 1 = Except.ok t1) :
    runProgram true clock =
      (Event.printLine "The sum is: 7" ::
        (Event.readClock t0 ::
          (List.replicate loopBound Event.tick ++
            [Event.readClock t1, Event.printLine (timeLine (t1 - t0))])),
        0) := by
  simp [runProgram, simple_eq, performance_eq clock t0 t1 h0 h1]

theorem printedLines_nil : printedLines [] = [] := rfl

theorem printedLines_cons_print (s : String) (l : List Event) :
    printedLines (Event.printLine s :: l) = s :: printedLines l := rfl

theorem printedLines_cons_readClock (t : Rat) (l : List Event) :
    printedLines (Event.readClock t :: l) = printedLines l := rfl

theorem printedLines_append (l1 l2 : List Event) :
    printedLines (l1 ++ l2) = printedLines l1 ++ printedLines l2 := by
  induction l1 with
  | nil => rfl
  | cons e rest ih => cases e <;> simp [printedLines, ih]

theorem printedLines_replicate_tick (n : Nat) :
    printedLines (List.replicate n Event.tick) = [] := by
  induction n with
  | zero => rfl
  | succ k ih => simp [List.replicate_succ, printedLines, ih]

theorem printedLines_timer_trace (t0 t1 : Rat) (n : Nat) (tl : String) :
    printedLines (Event.readClock t0 ::
      (List.replicate n Event.tick ++
        [Event.readClock t1, Event.printLine tl])) = [tl] := by
  rw [printedLines_cons_readClock, printedLines_append,
    printedLines_replicate_tick, List.nil_append, printedLines_cons_readClock,
    printedLines_cons_print, printedLines_nil]

theorem printedLines_full_trace (s : String) (t0 t1 : Rat) (n : Nat)
    (tl : String) :
    printedLines (Event.printLine s ::
      (Event.readClock t0 ::
        (List.replicate n Event.tick ++
          [Event.readClock t1, Event.printLine tl]))) = [s, tl] := by
  rw [printedLines_cons_print, printedLines_timer_trace]

theorem printedLines_runProgram_true (clock : Nat → Except String Rat)
    (t0 t1 : Rat) (h0 : clock 0 = Except.ok t0) (h1 : clock 1 = Except.ok t1) :
    printedLines (runProgram true clock).1 =
      ["The sum is: 7", timeLine (t1 - t0)] := by
  rw [runProgram_true_eq clock t0 t1 h0 h1]
  exact printedLines_full_trace "The sum is: 7" t0 t1 loopBound
    (timeLine (t1 - t0))

/-- Claim C1: for every pair of integers `(a, b)`, `add(a, b)` returns exactly
`a + b`, with exact integer arithmetic and no rounding (the result is the
mathematical sum in `Int`, and the call returns normally). -/
theorem C1_add_int_exact (a b : Int) :
    add (PyVal.int a) (PyVal.int b) = Except.ok (PyVal.int (a + b)) := rfl

/-- Claim C2: `add(3, 4)` returns exactly `7`, and `simple()` writes exactly
one line to standard output, namely the label `"The sum is:"` followed by `7`;
that line contains the character `7`; `simple()` has no other event. -/
theorem C2_simple_output :
    add (PyVal.int 3) (PyVal.int 4) = Except.ok (PyVal.int 7) ∧
    simple = Except.ok [Event.printLine ("The sum is:" ++ " " ++ "7")] ∧
    printedLines [Event.printLine "The sum is: 7"] = ["The sum is: 7"] ∧
    "The sum is: 7".toList.contains '7' = true := by
  refine ⟨rfl, rfl, rfl, rfl⟩

/-- Claim C3: `performance()` reads a start timestamp, executes a loop whose
body does no work (`passBody` leaves the locals unchanged) exactly
`10000000` times, reads an end timestamp, and writes exactly one line, which
reports the value `end - start`; the loop bound is the constant `10000000`. -/
theorem C3_performance_trace (clock : Nat → Except String Rat) (t0 t1 : Rat)
    (h0 : clock 0 = Except.ok t0) (h1 : clock 1 = Except.ok t1) :
    loopBound = 10000000 ∧
    (∀ (σ : PerfLocals) (i : Nat), passBody σ i = ([Event.tick], σ)) ∧
    performance clock = Except.ok
      (Event.readClock t0 ::
        (List.replicate 10000000 Event.tick ++
          [Event.readClock t1, Event.printLine (timeLine (t1 - t0))]),
        t1 - t0) ∧
    (∀ evs elapsed, performance clock = Except.ok (evs, elapsed) →
      printedLines evs = [timeLine (t1 - t0)]) := by
  have hp := performance_eq clock t0 t1 h0 h1
  refine ⟨rfl, fun σ i => rfl, hp, fun evs elapsed h => ?_⟩
  rw [hp] at h
  cases h
  exact printedLines_timer_trace t0 t1 loopBound (timeLine (t1 - t0))

theorem C3_performance_trace_witness :
    loopBound = 10000000 ∧
    (∀ (σ : PerfLocals) (i : Nat), passBody σ i = ([Event.tick], σ)) ∧
    performance goodClock = Except.ok
      (Event.readClock 0 ::
        (List.replicate 10000000 Event.tick ++
          [Event.readClock 0, Event.printLine (timeLine (0 - 0))]),
        0 - 0) ∧
    (∀ evs elapsed, performance goodClock = Except.ok (evs, elapsed) →
      printedLines evs = [timeLine (0 - 0)]) :=
  C3_performance_trace goodClock 0 0 rfl rfl

/-- Claim C4, counterexample to the claim as stated: the clock source
`time.time()` is a wall clock that the code does nothing to make monotonic;
in an environment that steps the clock backwards between the two reads
(first read `1`, second read `0`) the reported elapsed value is `-1 < 0`. -/
theorem C4_claim_counterexample :
    Except.map Prod.snd (performance badClock) = Except.ok (-1) ∧
    ¬ (0 ≤ (-1 : Rat)) := by
  constructor
  · rw [performance_eq badClock 1 0 rfl rfl]
    norm_num [Except.map]
  · norm_num

/-- Claim C4, amended: the elapsed duration computed by `performance()` is
`end - start`, which is non-negative whenever the end reading is at least the
start reading; the code relies on the environment for that ordering, since
`time.time()` is not guaranteed monotonic. -/
theorem C4_elapsed_nonneg (clock : Nat → Except String Rat) (t0 t1 : Rat)
    (h0 : clock 0 = Except.ok t0) (h1 : clock 1 = Except.ok t1)
    (hmono : t0 ≤ t1) :
    ∃ evs elapsed, performance clock = Except.ok (evs, elapsed) ∧
      elapsed = t1 - t0 ∧ 0 ≤ elapsed := by
  refine ⟨_, _, performance_eq clock t0 t1 h0 h1, rfl, ?_⟩
  simpa using hmono

theorem C4_elapsed_nonneg_witness :
    ∃ evs elapsed, performance goodClock = Except.ok (evs, elapsed) ∧
      elapsed = 0 - 0 ∧ 0 ≤ elapsed :=
  C4_elapsed_nonneg goodClock 0 0 rfl rfl le_rfl

/-- Claim C5: run as the main program, the script executes `simple()` then
`performance()` in that order, printing exactly two lines, the first being
`"The sum is: 7"` (which contains `7`) and the second reporting the elapsed
duration; imported as a module it runs neither and prints nothing. -/
theorem C5_main_guard (clock : Nat → Except String Rat) (t0 t1 : Rat)
    (h0 : clock 0 = Except.ok t0) (h1 : clock 1 = Except.ok t1) :
    runProgram true clock =
      (Event.printLine "The sum is: 7" ::
        (Event.readClock t0 ::
          (List.replicate loopBound Event.tick ++
            [Event.readClock t1, Event.printLine (timeLine (t1 - t0))])),
        0) ∧
    printedLines (runProgram true clock).1 =
      ["The sum is: 7", timeLine (t1 - t0)] ∧
    "The sum is: 7".toList.contains '7' = true ∧
    runProgram false clock = ([], 0) := by
  refine ⟨runProgram_true_eq clock t0 t1 h0 h1,
    printedLines_runProgram_true clock t0 t1 h0 h1, rfl, rfl⟩

theorem C5_main_guard_witness :
    runProgram true goodClock =
      (Event.printLine "The sum is: 7" ::
        (Event.readClock 0 ::
          (List.replicate loopBound Event.tick ++
            [Event.readClock 0, Event.printLine (timeLine (0 - 0))])),
        0) ∧
    printedLines (runProgram true goodClock).1 =
      ["The sum is: 7", timeLine (0 - 0)] ∧
    "The sum is: 7".toList.contains '7' = true ∧
    runProgram false goodClock = ([], 0) :=
  C5_main_guard goodClock 0 0 rfl rfl

/-- Claim C6: whenever both clock reads succeed the program completes normally
with exit code `0`, whether run as main or imported, and there is no other
exit path; an environmental clock fault (at either read) propagates as an
unhandled exception terminating the process with the non-zero exit code
`1`. -/
theorem C6_exit_code :
    (∀ (b : Bool) (clock : Nat → Except String Rat) (t0 t1 : Rat),
      clock 0 = Except.ok t0 → clock 1 = Except.ok t1 →
      (runProgram b clock).2 = 0) ∧
    (∀ (clock : Nat → Except String Rat) (e : String),
      clock 0 = Except.error e → (runProgram true clock).2 = 1) ∧
    (∀ (clock : Nat → Except String Rat) (t0 : Rat) (e : String),
      clock 0 = Except.ok t0 → clock 1 = Except.error e →
      (runProgram true clock).2 = 1) := by
  refine ⟨fun b clock t0 t1 h0 h1 => ?_, fun clock e h0 => ?_,
    fun clock t0 e h0 h1 => ?_⟩
  · cases b
    · rfl
    · rw [runProgram_true_eq clock t0 t1 h0 h1]
  · simp [runProgram, simple_eq, performance, h0]
  · simp [runProgram, simple_eq, performance, h0, h1]

theorem C6_exit_code_witness :
    (runProgram true goodClock).2 = 0 ∧ (runProgram true errClock).2 = 1 :=
  ⟨C6_exit_code.1 true goodClock 0 0 rfl rfl,
    C6_exit_code.2.1 errClock "clock unavailable" rfl⟩

/-- Claim C7: for every pair of integer inputs, `add` returns normally: the
result is `Except.ok` (never an exception), carrying the sum; by its type,
`add` emits no events and touches no state. -/
theorem C7_add_total (a b : Int) :
    ∃ v, add (PyVal.int a) (PyVal.int b) = Except.ok v ∧ v = PyVal.int (a + b) :=
  ⟨PyVal.int (a + b), rfl, rfl⟩

/-- Claim C8: two runs of the program under possibly different clock
environments exit with the same code, print the same number of lines with the
same first line, and each second line has the shape `timeLine v` for some
elapsed value `v`, which is the only part that may differ between the runs. -/
theorem C8_format_stable (c1 c2 : Nat → Except String Rat) (a0 a1 b0 b1 : Rat)
    (ha0 : c1 0 = Except.ok a0) (ha1 : c1 1 = Except.ok a1)
    (hb0 : c2 0 = Except.ok b0) (hb1 : c2 1 = Except.ok b1) :
    (runProgram true c1).2 = (runProgram true c2).2 ∧
    (printedLines (runProgram true c1).1).length = 2 ∧
    (printedLines (runProgram true c2).1).length = 2 ∧
    (printedLines (runProgram true c1).1).head? =
      (printedLines (runProgram true c2).1).head? ∧
    (∃ v1, (printedLines (runProgram true c1).1).getLast? =
      some (timeLine v1)) ∧
    (∃ v2, (printedLines (runProgram true c2).1).getLast? =
      some (timeLine v2)) := by
  have l1 := printedLines_runProgram_true c1 a0 a1 ha0 ha1
  have l2 := printedLines_runProgram_true c2 b0 b1 hb0 hb1
  have e1 := runProgram_true_eq c1 a0 a1 ha0 ha1
  have e2 := runProgram_true_eq c2 b0 b1 hb0 hb1
  rw [l1, l2, e1, e2]
  exact ⟨rfl, rfl, rfl, rfl, ⟨a1 - a0, rfl⟩, ⟨b1 - b0, rfl⟩⟩

theorem C8_format_stable_witness :
    (runProgram true goodClock).2 = (runProgram true badClock).2 ∧
    (printedLines (runProgram true goodClock).1).length = 2 ∧
    (printedLines (runProgram true badClock).1).length = 2 ∧
    (printedLines (runProgram true goodClock).1).head? =
      (printedLines (runProgram true badClock).1).head? ∧
    (∃ v1, (printedLines (runProgram true goodClock).1).getLast? =
      some (timeLine v1)) ∧
    (∃ v2, (printedLines (runProgram true badClock).1).getLast? =
      some (timeLine v2)) :=
  C8_format_stable goodClock badClock 0 0 1 0 rfl rfl rfl rfl

/-- Claim C9: the loop body mutates no local state (`runLoop` is the identity
on the locals), so the elapsed value reported by `performance()` equals that
of the variant with the loop replaced by a no-op, and the whole result of
`performance()` depends only on the two clock readings. -/
theorem C9_frame (clock c2 : Nat → Except String Rat) :
    (∀ (n : Nat) (σ : PerfLocals), (runLoop n σ).2 = σ) ∧
    Except.map Prod.snd (performance clock) =
      Except.map Prod.snd (performanceNoLoop clock) ∧
    (clock 0 = c2 0 → clock 1 = c2 1 → performance clock = performance c2) := by
  refine ⟨fun n σ => by rw [runLoop_eq], ?_, fun h0 h1 => ?_⟩
  · cases hc0 : clock 0 with
    | error e => simp [performance, performanceNoLoop, hc0, Except.map]
    | ok t0 =>
      cases hc1 : clock 1 with
      | error e => simp [performance, performanceNoLoop, hc0, hc1, Except.map]
      | ok t1 => simp [performance, performanceNoLoop, hc0, hc1, runLoop_eq,
          Except.map]
  · simp only [performance]
    rw [h0, h1]

theorem C9_frame_witness :
    Except.map Prod.snd (performance goodClock) =
      Except.map Prod.snd (performanceNoLoop goodClock) ∧
    performance goodClock = performance altClock :=
  ⟨(C9_frame goodClock altClock).2.1, (C9_frame goodClock altClock).2.2 rfl rfl⟩

/-- Claim C10: `add` is not restricted to numeric operands: on any two
operands for which Python `+` is defined it returns their `+` result; in
particular two strings yield their concatenation, and two lists yield their
concatenation. -/
theorem C10_add_polymorphic :
    (∀ s t : String, add (PyVal.str s) (PyVal.str t) =
      Except.ok (PyVal.str (s ++ t))) ∧
    (∀ xs ys : List PyVal, add (PyVal.list xs) (PyVal.list ys) =
      Except.ok (PyVal.list (xs ++ ys))) :=
  ⟨fun s t => rfl, fun xs ys => rfl⟩
